import Mathlib

/-!
Verification development for the booking backend (reservation lifecycle,
payment reconciliation, expiry sweep, notification dispatch).

The definitions below are a shallow embedding of the JavaScript source:
the `bookings` MySQL table becomes a `List Booking`, each SQL statement
becomes a pure function on that list (a conditional `UPDATE ... WHERE`
returns the new table together with its `affectedRows` count), and each
HTTP handler becomes a function from the table and its resolved external
inputs (current time, gateway replies, fault flags) to a result and the
new table.  Timestamps are naturals (milliseconds), matching `Date.now()`.
-/

/-- Payment status values stored in `bookings.payment_status`
(`'pending' | 'paid' | 'failed'` are the only values the source writes). -/
inductive PayStatus where
  | pending
  | paid
  | failed
deriving DecidableEq

/-- SMS dispatch status stored in `bookings.sms_status`
(`NULL | 'pending' | 'sent' | 'failed'`); `unset` models SQL `NULL`. -/
inductive SmsStatus where
  | unset
  | pending
  | sent
  | failed
deriving DecidableEq

/-- One row of the `bookings` table.  Column mapping:
`id, date, hours, name, email, phone, amount_czk, payment_status,
gopay_order_number, gopay_payment_id, expires_at, sms_status,
payment_error`.  The constant `currency='CZK'` column and the
audit-only timestamp columns (`payment_paid_at`, `sms_sent_at`,
`payment_created_at`) and `payment_url` are not modelled since no
control flow reads them. -/
structure Booking where
  id : Nat
  date : String
  hours : List String
  name : String
  email : String
  phone : String
  amountCzk : Nat
  status : PayStatus
  orderNo : Option String
  gopayPaymentId : Option Nat
  expiresAt : Option Nat
  smsStatus : SmsStatus
  paymentError : Option String
deriving DecidableEq

/-- The `bookings` table. -/
abbrev Db := List Booking

/-- JS `String.prototype.trim()`: drop whitespace at both ends. -/
def trimStr (s : String) : String :=
  String.mk (((s.data.dropWhile Char.isWhitespace).reverse.dropWhile
    Char.isWhitespace).reverse)

/-- JS `.replace(/–/g, '-')`: rewrite every en-dash to a hyphen
(index.js line 407 and the conflict checks). -/
def toHyphen (s : String) : String :=
  String.mk (s.data.map (fun c => if c = '–' then '-' else c))

/-- JS replace of every hyphen by an en-dash
(index.js line 427, building the second `JSON_CONTAINS` probe). -/
def toEnDash (s : String) : String :=
  String.mk (s.data.map (fun c => if c = '-' then '–' else c))

/-- Request-hour normalisation in `/book`:
`String(h || '').trim().replace(/–/g, '-')` (index.js line 407). -/
def normHour (h : String) : String := toHyphen (trimStr h)

/-- Lexicographic code-unit comparison on character lists. -/
def charListLt : List Char → List Char → Bool
  | [], [] => false
  | [], _ :: _ => true
  | _ :: _, [] => false
  | a :: as, b :: bs =>
    if a < b then true else if b < a then false else charListLt as bs

/-- The JS string comparison `dateStr < todayPrg` (index.js line 398):
lexicographic over code units. -/
def strLt (a b : String) : Bool := charListLt a.data b.data

/-- The regex `/^\d{4}-\d{2}-\d{2}$/` used to validate `date`
(index.js line 393). -/
def validDateFormat (s : String) : Bool :=
  match s.data with
  | [y1, y2, y3, y4, c1, m1, m2, c2, d1, d2] =>
    y1.isDigit && y2.isDigit && y3.isDigit && y4.isDigit &&
    decide (c1 = '-') && m1.isDigit && m2.isDigit &&
    decide (c2 = '-') && d1.isDigit && d2.isDigit
  | _ => false

/-- `JSON_CONTAINS(hours, '"tok"', '$')` on a JSON array of strings:
membership of the token in the stored list. -/
def containsTok (l : List String) (s : String) : Bool :=
  l.any (fun x => decide (x = s))

/-- The per-request-hour disjunct of the conflict `SELECT`
(index.js lines 410-411, 426-430): the stored row matches if its
`hours` array contains the hyphen spelling or the en-dash spelling
of the (already normalised) requested hour. -/
def hourMatches (req : String) (stored : List String) : Bool :=
  containsTok stored req || containsTok stored (toEnDash req)

/-- The "active" predicate of the conflict `SELECT`
(index.js lines 417-420): `payment_status = 'paid' OR
(payment_status = 'pending' AND (expires_at IS NULL OR expires_at >= NOW()))`. -/
def activeForConflict (now : Nat) (b : Booking) : Bool :=
  decide (b.status = PayStatus.paid) ||
    (decide (b.status = PayStatus.pending) &&
      (match b.expiresAt with
       | none => true
       | some t => decide (now ≤ t)))

/-- One stored row matching the whole conflict `SELECT` for a request. -/
def conflictRow (now : Nat) (date : String) (reqHours : List String)
    (b : Booking) : Bool :=
  decide (b.date = date) && activeForConflict now b &&
    reqHours.any (fun h => hourMatches h b.hours)

/-- `SELECT id FROM bookings WHERE date=? AND (active) AND (hour conds)
LIMIT 1` returned a row (index.js lines 414-423). -/
def conflictExists (db : Db) (now : Nat) (date : String)
    (reqHours : List String) : Bool :=
  db.any (conflictRow now date reqHours)

/-- The 15-minute hold window, in milliseconds (index.js line 445). -/
def holdMs : Nat := 15 * 60 * 1000

/-- Outcome of `gopayCreatePayment` as observed by `/book`. -/
inductive GatewayCreateResult where
  | ok (paymentId : Nat) (gwUrl : String)
  | fail (err : String)
deriving DecidableEq

/-- Result reported by `POST /book` to its caller. -/
inductive BookResult where
  | validationError (msg : String)
  | conflictError
  | priceError
  | created (bookingId : Nat) (paymentUrl : String) (expiresAt : Nat)
      (amountCzk : Nat)
  | gatewayError
deriving DecidableEq

/-- The result is one of the 400-class validation rejections. -/
def isValidationError : BookResult → Bool
  | BookResult.validationError _ => true
  | _ => false

/-- The row inserted by `/book` (index.js lines 446-459): status
`'pending'`, `expires_at = now + 15min`, `amount_czk =
hours.length * PRICE_PER_HOUR_CZK`, order number `TZ-${Date.now()}`,
no payment handle yet. -/
def pendingRow (now price nextId : Nat) (dateStr : String)
    (hoursNorm : List String) (name email phone : String) : Booking :=
  { id := nextId
    date := dateStr
    hours := hoursNorm
    name := name
    email := email
    phone := phone
    amountCzk := hoursNorm.length * price
    status := PayStatus.pending
    orderNo := some ("TZ-" ++ toString now)
    gopayPaymentId := none
    expiresAt := some (now + holdMs)
    smsStatus := SmsStatus.unset
    paymentError := none }

/-- `POST /book` (index.js lines 344-517) from the date validation
onward, with the external effects resolved into parameters: `now` is
`Date.now()`, `today` is `todayPragueYYYYMMDD()`, `price` the value of
`getPriceCZK()`, `nextId` the `insertId` MySQL would assign, and `gw`
the outcome of `gopayCreatePayment`.  The earlier steps (sanitising,
phone normalisation, reCAPTCHA) touch no reservation state. -/
def postBook (db : Db) (now : Nat) (today : String) (price nextId : Nat)
    (gw : GatewayCreateResult) (date : String) (hours : List String)
    (name email phone : String) : BookResult × Db :=
  let dateStr := trimStr date
  if validDateFormat dateStr then
    if strLt dateStr today then
      (BookResult.validationError "Nelze rezervovat zpetne.", db)
    else if hours = [] then
      (BookResult.validationError "Chybi hodiny rezervace.", db)
    else
      let hoursNorm := hours.map normHour
      if conflictExists db now dateStr hoursNorm then
        (BookResult.conflictError, db)
      else if hoursNorm.length * price = 0 then
        (BookResult.priceError, db)
      else
        let row := pendingRow now price nextId dateStr hoursNorm name email phone
        match gw with
        | GatewayCreateResult.ok pid url =>
          (BookResult.created nextId url (now + holdMs) (hoursNorm.length * price),
           (db ++ [row]).map (fun b =>
             if decide (b.id = nextId) then
               { b with gopayPaymentId := some pid }
             else b))
        | GatewayCreateResult.fail e =>
          (BookResult.gatewayError,
           (db ++ [row]).map (fun b =>
             if decide (b.id = nextId) then
               { b with status := PayStatus.failed, paymentError := some e }
             else b))
  else
    (BookResult.validationError "Neplatne datum.", db)

/-- The settings collaborator plus the ledger: `pricePerHourCzk` and
`accessCode` mirror the two rows of the `settings` table. -/
structure AppState where
  db : Db
  pricePerHourCzk : Nat
  accessCode : String
deriving DecidableEq

/-- `PUT /admin/settings` (index.js lines 736-753): upserts the supplied
keys into the `settings` table and touches nothing else. -/
def adminPutSettings (st : AppState) (price : Option Nat)
    (code : Option String) : AppState :=
  { st with
    pricePerHourCzk := price.getD st.pricePerHourCzk
    accessCode := code.getD st.accessCode }

/-- Hit predicate of the conditional `UPDATE bookings SET
payment_status='paid' ... WHERE id=? AND payment_status!='paid'`
shared by the webhook (index.js lines 836-840) and the manual confirm
endpoint (lines 981-985). -/
def markPaidHit (i : Nat) (b : Booking) : Bool :=
  decide (b.id = i) && !(decide (b.status = PayStatus.paid))

/-- Row effect of that `UPDATE`: `payment_status='paid',
payment_error=NULL` (the `payment_paid_at` audit column is unmodelled). -/
def markPaidApply (b : Booking) : Booking :=
  { b with status := PayStatus.paid, paymentError := none }

/-- The conditional update itself, returning the new table and
`affectedRows`. -/
def markPaidCond (db : Db) (i : Nat) : Db × Nat :=
  (db.map (fun b => if markPaidHit i b then markPaidApply b else b),
   db.countP (markPaidHit i))

/-- `UPDATE bookings SET payment_error=? WHERE id=?` storing the
non-terminal gateway state as a diagnostic note (index.js lines 925-929). -/
def notePaymentError (db : Db) (i : Nat) (state : String) : Db :=
  db.map (fun b =>
    if decide (b.id = i) then { b with paymentError := some state } else b)

/-- A trigger of the reconciliation engine attempting `markPaid`:
the GoPay webhook or the manual `/confirm/:id` endpoint.  Both run the
identical conditional `UPDATE` and both send the confirmation
notification iff `affectedRows === 1`. -/
inductive Trigger where
  | webhook
  | confirm
deriving DecidableEq

/-- A serialised run of `markPaid` attempts against one reservation:
each attempt performs the atomic conditional update and fires the
confirmation notification iff its update affected exactly one row.
Returns the final table and how many attempts fired the notification. -/
def runMarkPaidAttempts (db : Db) (i : Nat) : List Trigger → Db × Nat
  | [] => (db, 0)
  | _ :: ts =>
    let step := markPaidCond db i
    let rest := runMarkPaidAttempts step.1 i ts
    (rest.1, (if step.2 = 1 then 1 else 0) + rest.2)

/-- Response of the `/gopay/webhook` handler: the new table, the HTTP
status returned to GoPay, and whether the confirmation notification
batch (email + SMS block) was triggered. -/
structure WebhookOut where
  db : Db
  httpCode : Nat
  notifCount : Nat
deriving DecidableEq

/-- `app.all('/gopay/webhook')` (index.js lines 811-936) with external
effects resolved: `idOpt` is the payment-handle id extracted from query
or body (`none` for a missing/falsy id), `gw` the outcome of
`gopayGetPayment`, `selFault`/`updFault` inject MySQL errors on the
`SELECT` and the conditional `UPDATE`.  Every internal failure is
answered with HTTP 200. -/
def webhookStep (db : Db) (selFault updFault : Bool) (idOpt : Option Nat)
    (gw : Except String String) : WebhookOut :=
  match idOpt with
  | none => { db := db, httpCode := 200, notifCount := 0 }
  | some pid =>
    match gw with
    | Except.error _ => { db := db, httpCode := 200, notifCount := 0 }
    | Except.ok state =>
      if selFault then { db := db, httpCode := 200, notifCount := 0 }
      else
        match db.find? (fun b => decide (b.gopayPaymentId = some pid)) with
        | none => { db := db, httpCode := 200, notifCount := 0 }
        | some row =>
          if state = "PAID" then
            if updFault then { db := db, httpCode := 200, notifCount := 0 }
            else
              let r := markPaidCond db row.id
              { db := r.1, httpCode := 200,
                notifCount := if r.2 = 1 then 1 else 0 }
          else
            { db := notePaymentError db row.id state, httpCode := 200,
              notifCount := 0 }

/-- Selection predicate of the expiry sweeper (index.js line 944):
`payment_status='pending' AND expires_at IS NOT NULL AND expires_at < ?`. -/
def sweepPred (now : Nat) (b : Booking) : Bool :=
  decide (b.status = PayStatus.pending) &&
    (match b.expiresAt with
     | none => false
     | some t => decide (t < now))

/-- The sweeper's `SELECT *` of expired pending rows. -/
def sweepSelect (db : Db) (now : Nat) : List Booking :=
  db.filter (sweepPred now)

/-- The sweeper's `DELETE FROM bookings WHERE id=?` (index.js line 953):
unconditional on status. -/
def sweepDelete (db : Db) (i : Nat) : Db :=
  db.filter (fun b => !(decide (b.id = i)))

/-- Selection predicate of the polling sweep (src/unnamed/part_001 lines
539-545): `payment_status='pending' AND gopay_payment_id IS NOT NULL AND
(expires_at IS NULL OR expires_at > NOW())`. -/
def pollPred (now : Nat) (b : Booking) : Bool :=
  decide (b.status = PayStatus.pending) && b.gopayPaymentId.isSome &&
    (match b.expiresAt with
     | none => true
     | some t => decide (now < t))

/-- The polling sweep's `SELECT ... LIMIT 20`. -/
def pollSelect (db : Db) (now : Nat) : List Booking :=
  (db.filter (pollPred now)).take 20

/-- The polling sweep's `UPDATE bookings SET payment_status='paid',
payment_paid_at=NOW(), payment_error=NULL WHERE id=?`
(src/unnamed/part_001 line 556): unlike the webhook/confirm update it
carries no `payment_status!='paid'` guard. -/
def pollMarkPaidUncond (db : Db) (i : Nat) : Db :=
  db.map (fun b =>
    if decide (b.id = i) then
      { b with status := PayStatus.paid, paymentError := none }
    else b)

/-- Processing of one selected row by the polling sweep
(src/unnamed/part_001 lines 548-582): query the gateway; on `PAID` run
the unconditional update and send the confirmation email (counted in the
second component), on any other state store the diagnostic note, on a
gateway error do nothing. -/
def pollHandleRow (db : Db) (i : Nat) (gw : Except String String) :
    Db × Nat :=
  match gw with
  | Except.error _ => (db, 0)
  | Except.ok state =>
    if state = "PAID" then (pollMarkPaidUncond db i, 1)
    else (notePaymentError db i state, 0)

/-- `sms_status IS NULL OR sms_status='failed'`: the row is free for an
SMS send-lock acquisition (index.js lines 304-307). -/
def smsLockFree (b : Booking) : Bool :=
  decide (b.smsStatus = SmsStatus.unset) ||
    decide (b.smsStatus = SmsStatus.failed)

/-- Hit predicate of `reserveSmsSend`'s conditional `UPDATE`:
`WHERE id=? AND (sms_status IS NULL OR sms_status='failed')`. -/
def reserveHit (i : Nat) (b : Booking) : Bool :=
  decide (b.id = i) && smsLockFree b

/-- `reserveSmsSend` (index.js lines 301-316): `UPDATE bookings SET
sms_status='pending' WHERE id=? AND (sms_status IS NULL OR
sms_status='failed')`; the caller treats `affectedRows === 1` as having
acquired the send lock. -/
def reserveSmsSend (db : Db) (i : Nat) : Db × Nat :=
  (db.map (fun b =>
     if reserveHit i b then { b with smsStatus := SmsStatus.pending } else b),
   db.countP (reserveHit i))

/-- `UPDATE bookings SET sms_status='sent', ... WHERE id=?` run by the
lock holder after a successful delivery (index.js lines 904-908). -/
def smsMarkSent (db : Db) (i : Nat) : Db :=
  db.map (fun b =>
    if decide (b.id = i) then { b with smsStatus := SmsStatus.sent } else b)

/-- `UPDATE bookings SET sms_status='failed', sms_error=? WHERE id=?`
run by the lock holder when the send throws (index.js lines 914-918). -/
def smsMarkFailed (db : Db) (i : Nat) : Db :=
  db.map (fun b =>
    if decide (b.id = i) then { b with smsStatus := SmsStatus.failed } else b)

/-- Progress of one SMS-sending trigger against a fixed reservation:
`start w` has not yet attempted the lock (`w` says whether its transport
send would succeed), `sending w` holds the lock with the send in flight,
`done d` is finished with `d` recording a successful delivery. -/
inductive Phase where
  | start (willSucceed : Bool)
  | sending (willSucceed : Bool)
  | done (delivered : Bool)
deriving DecidableEq

/-- Per-row effect of `reserveSmsSend` on the target reservation's
`sms_status`: acquire (set `'pending'`, affect one row) iff the status
is `NULL` or `'failed'`, otherwise change nothing and affect zero rows. -/
def smsReserveRow (st : SmsStatus) : SmsStatus × Bool :=
  if st = SmsStatus.unset ∨ st = SmsStatus.failed then (SmsStatus.pending, true)
  else (st, false)

/-- The target reservation's `sms_status` together with the phases of
the concurrent sending triggers. -/
structure SmsMachine where
  st : SmsStatus
  phases : List Phase
deriving DecidableEq

/-- Interleaved execution: any trigger may run its atomic lock
acquisition (`reserveSmsSend`), and any lock holder may complete,
writing `'sent'` on success (`smsMarkSent`) or `'failed'` on error
(`smsMarkFailed`).  A trigger whose acquisition affected zero rows
finishes without sending. -/
inductive SmsStep : SmsMachine → SmsMachine → Prop where
  | reserve (st : SmsStatus) (pre post : List Phase) (w : Bool) :
      SmsStep { st := st, phases := pre ++ Phase.start w :: post }
        { st := (smsReserveRow st).1,
          phases := pre ++
            (if (smsReserveRow st).2 then Phase.sending w
             else Phase.done false) :: post }
  | finish (st : SmsStatus) (pre post : List Phase) (w : Bool) :
      SmsStep { st := st, phases := pre ++ Phase.sending w :: post }
        { st := if w then SmsStatus.sent else SmsStatus.failed,
          phases := pre ++ Phase.done w :: post }

/-- Reflexive-transitive closure of `SmsStep`. -/
inductive SmsReach : SmsMachine → SmsMachine → Prop where
  | refl (m : SmsMachine) : SmsReach m m
  | tail {a b c : SmsMachine} : SmsReach a b → SmsStep b c → SmsReach a c

/-- The trigger currently holds the send lock. -/
def isSending : Phase → Bool
  | Phase.sending _ => true
  | _ => false

/-- The trigger finished with a successful delivery. -/
def isDelivered : Phase → Bool
  | Phase.done d => d
  | _ => false

/-- Number of triggers that successfully delivered the SMS. -/
def deliveredCount (m : SmsMachine) : Nat :=
  m.phases.countP isDelivered

/-- Number of triggers currently holding the send lock. -/
def holdersCount (m : SmsMachine) : Nat :=
  m.phases.countP isSending

/-- Initial machine: any starting `sms_status`, all triggers yet to run,
with predetermined transport outcomes. -/
def smsInit (st0 : SmsStatus) (outcomes : List Bool) : SmsMachine :=
  { st := st0, phases := outcomes.map Phase.start }

/-- Safety invariant of the SMS dispatch protocol: at most one holder of
the send lock, at most one successful delivery, a delivery implies the
stored status is `'sent'`, a live holder implies the stored status is
`'pending'`, and once `'sent'` nobody holds the lock. -/
def smsInv (m : SmsMachine) : Prop :=
  holdersCount m ≤ 1 ∧ deliveredCount m ≤ 1 ∧
    (deliveredCount m = 1 → m.st = SmsStatus.sent) ∧
    (holdersCount m = 1 → m.st = SmsStatus.pending) ∧
    (m.st = SmsStatus.sent → holdersCount m = 0)

/-- Result reported by `POST /admin/owner-booking`. -/
inductive OwnerResult where
  | validationError (msg : String)
  | conflictError
  | ok (bookingId : Nat) (date : String) (hours : List String)
deriving DecidableEq

/-- Two-digit zero padding, as in the slot builders (index.js 610-614). -/
def pad2 (n : Nat) : String :=
  if n < 10 then "0" ++ toString n else toString n

/-- Minutes-since-midnight to `"HH:MM"`. -/
def fmtMin (m : Nat) : String :=
  pad2 (m / 60) ++ ":" ++ pad2 (m % 60)

/-- The strict `^(\d{2}):(\d{2})$` parser of `buildHourlySlots`
(index.js lines 602-609), with the `hh ≤ 23`, `mm ≤ 59` bounds. -/
def parseHHMM (s : String) : Option Nat :=
  match s.data with
  | [h1, h2, c, m1, m2] =>
    if h1.isDigit && h2.isDigit && decide (c = ':') && m1.isDigit && m2.isDigit
    then
      let hh := (h1.toNat - '0'.toNat) * 10 + (h2.toNat - '0'.toNat)
      let mm := (m1.toNat - '0'.toNat) * 10 + (m2.toNat - '0'.toNat)
      if hh ≤ 23 && mm ≤ 59 then some (hh * 60 + mm) else none
    else none
  | _ => none

/-- The whole-hour token list from `start` for `count` hours. -/
def hourTokens (start : Nat) : Nat → List String
  | 0 => []
  | n + 1 => (fmtMin start ++ "-" ++ fmtMin (start + 60)) ::
      hourTokens (start + 60) n

/-- `buildHourlySlots` (index.js lines 601-627): `none` on a parse
failure, `end <= start`, or a span not a whole number of hours. -/
def buildHourlySlots (startHHMM endHHMM : String) : Option (List String) :=
  match parseHHMM startHHMM, parseHHMM endHHMM with
  | some s, some e =>
    if e ≤ s then none
    else if (e - s) % 60 ≠ 0 then none
    else some (hourTokens s ((e - s) / 60))
  | _, _ => none

/-- The row inserted by `/admin/owner-booking` (index.js lines 684-700):
directly `'paid'`, amount 0, placeholder customer data, no GoPay fields,
no `expires_at`. -/
def ownerRow (nextId : Nat) (dateStr : String) (hoursNorm : List String) :
    Booking :=
  { id := nextId
    date := dateStr
    hours := hoursNorm
    name := "Owner"
    email := "owner@local"
    phone := "+000000000000"
    amountCzk := 0
    status := PayStatus.paid
    orderNo := none
    gopayPaymentId := none
    expiresAt := none
    smsStatus := SmsStatus.unset
    paymentError := none }

/-- `POST /admin/owner-booking` (index.js lines 629-719): date-format
check, hourly-slot construction, past-date check, the same active-row
conflict `SELECT` as `/book`, then a direct `'paid'` insert with no
notification of any kind. -/
def postOwnerBooking (db : Db) (now : Nat) (today : String) (nextId : Nat)
    (date startTime endTime : String) : OwnerResult × Db :=
  let dateStr := trimStr date
  if validDateFormat dateStr then
    match buildHourlySlots startTime endTime with
    | none => (OwnerResult.validationError "Pouzij startTime/endTime.", db)
    | some hoursArr =>
      if hoursArr = [] then
        (OwnerResult.validationError "Pouzij startTime/endTime.", db)
      else if strLt dateStr today then
        (OwnerResult.validationError "Nelze rezervovat zpetne.", db)
      else
        let hoursNorm := hoursArr.map normHour
        if conflictExists db now dateStr hoursNorm then
          (OwnerResult.conflictError, db)
        else
          (OwnerResult.ok nextId dateStr hoursNorm,
           db ++ [ownerRow nextId dateStr hoursNorm])
  else
    (OwnerResult.validationError "Neplatne datum.", db)

/-- A pending reservation about to be hit by the race between the expiry
sweeper and a `markPaid` trigger: hold deadline 1000, payment handle 5. -/
def raceBooking : Booking :=
  { id := 7
    date := "2026-01-05"
    hours := ["20:00-21:00"]
    name := "N"
    email := "n@example.com"
    phone := "+420777123456"
    amountCzk := 200
    status := PayStatus.pending
    orderNo := some "TZ-1"
    gopayPaymentId := some 5
    expiresAt := some 1000
    smsStatus := SmsStatus.unset
    paymentError := none }

/-- A pending, unexpired reservation with a payment handle, as picked up
by the polling sweep. -/
def pollBooking : Booking :=
  { id := 1
    date := "2026-01-05"
    hours := ["20:00-21:00"]
    name := "P"
    email := "p@example.com"
    phone := "+420777123457"
    amountCzk := 200
    status := PayStatus.pending
    orderNo := some "TZ-2"
    gopayPaymentId := some 5
    expiresAt := none
    smsStatus := SmsStatus.unset
    paymentError := none }

/-- A stored paid reservation whose hour token uses the historical
en-dash spelling. -/
def storedEnDash : Booking :=
  { id := 3
    date := "2026-01-05"
    hours := ["20:00–21:00"]
    name := "S"
    email := "s@example.com"
    phone := "+420777123458"
    amountCzk := 200
    status := PayStatus.paid
    orderNo := some "TZ-3"
    gopayPaymentId := some 9
    expiresAt := none
    smsStatus := SmsStatus.sent
    paymentError := none }

/-- A pending reservation used by witness instantiations of the
`markPaid` race theorem. -/
def wbBooking : Booking :=
  { id := 3
    date := "2026-01-05"
    hours := ["20:00-21:00"]
    name := "W"
    email := "w@example.com"
    phone := "+420777123459"
    amountCzk := 200
    status := PayStatus.pending
    orderNo := some "TZ-4"
    gopayPaymentId := some 11
    expiresAt := some 900000
    smsStatus := SmsStatus.unset
    paymentError := none }

/-! ## General helper lemmas -/

/-- If a predicate counts at most one hit in a list, any two hits are
equal as values. -/
theorem countP_le_one_eq {α : Type} (p : α → Bool) :
    ∀ l : List α, l.countP p ≤ 1 → ∀ a, a ∈ l → p a = true →
      ∀ b, b ∈ l → p b = true → a = b := by
  intro l
  induction l with
  | nil =>
    intro _ a ha
    exact absurd ha (List.not_mem_nil a)
  | cons x t ih =>
    intro hle a ha hpa b hb hpb
    rw [List.countP_cons] at hle
    cases hx : p x with
    | true =>
      rw [hx] at hle
      have h0 : t.countP p = 0 := by
        rw [if_pos rfl] at hle
        omega
      have ht := List.countP_eq_zero.mp h0
      rcases List.mem_cons.mp ha with rfl | hat
      · rcases List.mem_cons.mp hb with rfl | hbt
        · rfl
        · exact absurd hpb (ht b hbt)
      · exact absurd hpa (ht a hat)
    | false =>
      rw [hx] at hle
      have hle' : t.countP p ≤ 1 := by
        rw [if_neg Bool.false_ne_true] at hle
        omega
      rcases List.mem_cons.mp ha with rfl | hat
      · rw [hpa] at hx
        exact Bool.noConfusion hx
      · rcases List.mem_cons.mp hb with rfl | hbt
        · rw [hpb] at hx
          exact Bool.noConfusion hx
        · exact ih hle' a hat hpa b hbt hpb

/-- A guarded row update is the identity when no row matches the guard. -/
theorem map_ite_id {α : Type} (hit : α → Bool) (f : α → α) :
    ∀ l : List α, (∀ a ∈ l, hit a = false) →
      l.map (fun b => if hit b then f b else b) = l := by
  intro l
  induction l with
  | nil => intro _; rfl
  | cons x t ih =>
    intro h
    simp only [List.map_cons]
    rw [h x (List.mem_cons_self x t),
      ih (fun a ha => h a (List.mem_cons_of_mem x ha))]
    simp

/-! ## C1: the conditional pending-to-paid transition has one winner -/

/-- With a unique row for the id and that row pending, the conditional
`markPaid` update affects exactly one row. -/
theorem markPaidCount_eq_one (db : Db) (i : Nat) (b : Booking)
    (huniq : db.countP (fun x => decide (x.id = i)) = 1)
    (hmem : b ∈ db) (hid : b.id = i) (hpend : b.status = PayStatus.pending) :
    db.countP (markPaidHit i) = 1 := by
  have hle : db.countP (markPaidHit i) ≤
      db.countP (fun x => decide (x.id = i)) := by
    refine List.countP_mono_left ?_
    intro x hx hhit
    simp only [markPaidHit, Bool.and_eq_true, decide_eq_true_eq] at hhit
    simp [hhit.1]
  have hpos : 0 < db.countP (markPaidHit i) :=
    List.countP_pos_iff.mpr ⟨b, hmem, by simp [markPaidHit, hid, hpend]⟩
  omega

/-- After the conditional update, every row carrying the id is paid. -/
theorem markPaid_rows_paid (db : Db) (i : Nat) :
    ∀ c ∈ (markPaidCond db i).1, c.id = i → c.status = PayStatus.paid := by
  intro c hc hcid
  simp only [markPaidCond, List.mem_map] at hc
  obtain ⟨x, hx, rfl⟩ := hc
  by_cases hhit : markPaidHit i x = true
  · rw [if_pos hhit]
    rfl
  · rw [if_neg hhit] at hcid ⊢
    simp only [markPaidHit, Bool.and_eq_true, decide_eq_true_eq,
      Bool.not_eq_true', decide_eq_false_iff_not, not_and, not_not] at hhit
    exact hhit hcid

/-- If every id-row is already paid, the conditional update hits nothing. -/
theorem markPaidCount_zero (db : Db) (i : Nat)
    (h : ∀ c ∈ db, c.id = i → c.status = PayStatus.paid) :
    db.countP (markPaidHit i) = 0 := by
  rw [List.countP_eq_zero]
  intro c hc hhit
  simp only [markPaidHit, Bool.and_eq_true, decide_eq_true_eq,
    Bool.not_eq_true', decide_eq_false_iff_not] at hhit
  exact hhit.2 (h c hc hhit.1)

/-- Attempts against a table with no hittable row change nothing and
notify nobody. -/
theorem runMarkPaid_noop (i : Nat) :
    ∀ (ts : List Trigger) (db : Db), db.countP (markPaidHit i) = 0 →
      runMarkPaidAttempts db i ts = (db, 0) := by
  intro ts
  induction ts with
  | nil => intro db _; rfl
  | cons t ts ih =>
    intro db h
    have hmap : (markPaidCond db i).1 = db := by
      simp only [markPaidCond]
      exact map_ite_id _ _ db (fun a ha => by
        have := List.countP_eq_zero.mp h a ha
        simpa using this)
    simp only [runMarkPaidAttempts, hmap, ih db h]
    simp [markPaidCond, h]

/-- C1: for any reservation with a unique id and status pending, any
nonempty serialised sequence of `markPaid` attempts (webhook and manual
confirm calls in any interleaving of their atomic conditional updates)
performs the pending-to-paid transition exactly once: the run equals a
single conditional update, the confirmation notification fires exactly
once, and afterwards every row carrying the id is paid, so all other
attempts are no-ops that send nothing. -/
theorem markPaid_attempts_single_winner (db : Db) (i : Nat) (b : Booking)
    (ts : List Trigger)
    (huniq : db.countP (fun x => decide (x.id = i)) = 1)
    (hmem : b ∈ db) (hid : b.id = i) (hpend : b.status = PayStatus.pending)
    (hne : ts ≠ []) :
    runMarkPaidAttempts db i ts = ((markPaidCond db i).1, 1) ∧
      ∀ c ∈ (markPaidCond db i).1, c.id = i → c.status = PayStatus.paid := by
  have hone := markPaidCount_eq_one db i b huniq hmem hid hpend
  have hpaid := markPaid_rows_paid db i
  have hzero := markPaidCount_zero (markPaidCond db i).1 i hpaid
  refine ⟨?_, hpaid⟩
  cases ts with
  | nil => exact absurd rfl hne
  | cons t ts =>
    simp only [runMarkPaidAttempts]
    rw [runMarkPaid_noop i ts (markPaidCond db i).1 hzero]
    have h2 : (markPaidCond db i).2 = 1 := hone
    simp [h2]

/-- Witness for C1: a single pending reservation, three attempts
(webhook, manual confirm, webhook again): one winner, one notification. -/
theorem markPaid_attempts_single_winner_witness :
    runMarkPaidAttempts [wbBooking] 3
        [Trigger.webhook, Trigger.confirm, Trigger.webhook] =
      ((markPaidCond [wbBooking] 3).1, 1) :=
  (markPaid_attempts_single_winner [wbBooking] 3 wbBooking
    [Trigger.webhook, Trigger.confirm, Trigger.webhook]
    (by decide) (by decide) (by decide) (by decide) (by decide)).1

/-- C3: the expiry sweeper's `SELECT` picks the expired pending
reservation, the webhook's conditional update then flips it to paid and
fires the confirmation, and the sweeper's unconditional `DELETE ...
WHERE id=?` nevertheless removes the now-paid reservation — the loser of
the race is not a no-op, contradicting the claim. -/
theorem expiry_sweeper_deletes_paid_row :
    sweepSelect [raceBooking] 2000 = [raceBooking] ∧
    (webhookStep [raceBooking] false false (some 5) (Except.ok "PAID")).notifCount = 1 ∧
    (webhookStep [raceBooking] false false (some 5) (Except.ok "PAID")).db =
      [{ raceBooking with status := PayStatus.paid, paymentError := none }] ∧
    sweepDelete
      (webhookStep [raceBooking] false false (some 5) (Except.ok "PAID")).db 7 =
      [] := by
  decide

/-- C8: every path of the webhook handler — missing payment-handle id,
gateway query error, `SELECT` fault, no matching reservation, `UPDATE`
fault, winning update, duplicate delivery, non-paid state — answers the
caller with HTTP 200. -/
theorem webhook_always_success_response (db : Db) (selFault updFault : Bool)
    (idOpt : Option Nat) (gw : Except String String) :
    (webhookStep db selFault updFault idOpt gw).httpCode = 200 := by
  cases idOpt with
  | none => rfl
  | some pid =>
    cases gw with
    | error e => rfl
    | ok s =>
      cases selFault with
      | true => rfl
      | false =>
        simp only [webhookStep]
        cases hfind : db.find? (fun b => decide (b.gopayPaymentId = some pid)) with
        | none => rfl
        | some row =>
          by_cases hs : s = "PAID"
          · cases updFault with
            | true => simp [hs]
            | false => simp [hs]
          · simp [hs]

/-- C2: (1) if an active reservation (paid, or pending with its hold
deadline not yet passed) exists for the date and one of its stored slot
tokens equals a requested slot after normalising the hyphen/en-dash
separator spelling (stored tokens use one of the two historical
spellings), the creation attempt fails with the conflict rejection and
inserts nothing; (2) reservations with status failed, or pending with a
passed deadline, are never active; (3) a table whose rows are all
inactive never produces a conflict. -/
theorem conflict_blocks_creation :
    (∀ (db : Db) (now : Nat) (today : String) (price nextId : Nat)
        (gw : GatewayCreateResult) (date : String) (hours : List String)
        (name email phone : String) (b : Booking),
        validDateFormat (trimStr date) = true →
        strLt (trimStr date) today = false →
        hours ≠ [] →
        b ∈ db → b.date = trimStr date → activeForConflict now b = true →
        (∀ s ∈ b.hours, s = toHyphen s ∨ s = toEnDash (toHyphen s)) →
        (∃ h ∈ hours, ∃ s ∈ b.hours, toHyphen s = normHour h) →
        postBook db now today price nextId gw date hours name email phone =
          (BookResult.conflictError, db)) ∧
    (∀ (now : Nat) (b : Booking),
        b.status = PayStatus.failed ∨
          (b.status = PayStatus.pending ∧ ∃ t, b.expiresAt = some t ∧ t < now) →
        activeForConflict now b = false) ∧
    (∀ (db : Db) (now : Nat) (date : String) (reqHours : List String),
        (∀ b ∈ db, activeForConflict now b = false) →
        conflictExists db now date reqHours = false) := by
  refine ⟨?_, ?_, ?_⟩
  · intro db now today price nextId gw date hours name email phone b
    intro hfmt hpast hne hmem hbdate hact hsp hov
    have hc : conflictExists db now (trimStr date) (hours.map normHour) = true := by
      obtain ⟨h, hh, s, hs, heq⟩ := hov
      rw [conflictExists, List.any_eq_true]
      refine ⟨b, hmem, ?_⟩
      rw [conflictRow]
      simp only [Bool.and_eq_true]
      refine ⟨⟨by simp [hbdate], hact⟩, ?_⟩
      rw [List.any_eq_true]
      refine ⟨normHour h, List.mem_map.mpr ⟨h, hh, rfl⟩, ?_⟩
      rw [hourMatches, Bool.or_eq_true]
      rcases hsp s hs with hcase | hcase
      · left
        rw [containsTok, List.any_eq_true]
        exact ⟨s, hs, by simp [hcase.trans heq]⟩
      · right
        rw [containsTok, List.any_eq_true]
        refine ⟨s, hs, ?_⟩
        rw [heq] at hcase
        simp [hcase]
    simp [postBook, hfmt, hpast, hne, hc]
  · intro now b hb
    rcases hb with hf | ⟨hp, t, het, htlt⟩
    · simp [activeForConflict, hf]
    · have hnl : ¬ (now ≤ t) := by omega
      simp [activeForConflict, hp, het, hnl]
  · intro db now date reqHours h
    rw [conflictExists, List.any_eq_false]
    intro b hb
    simp [conflictRow, h b hb]

/-- Witness for C2: a stored paid reservation with the en-dash spelling
blocks a hyphen-spelled request for the same date and slot. -/
theorem conflict_blocks_creation_witness :
    postBook [storedEnDash] 0 "2026-01-05" 200 4 (GatewayCreateResult.ok 9 "u")
        "2026-01-05" ["20:00-21:00"] "N" "E" "P" =
      (BookResult.conflictError, [storedEnDash]) :=
  conflict_blocks_creation.1 [storedEnDash] 0 "2026-01-05" 200 4
    (GatewayCreateResult.ok 9 "u") "2026-01-05" ["20:00-21:00"] "N" "E" "P"
    storedEnDash (by decide) (by decide) (by decide) (by decide) (by decide)
    (by decide) (by decide)
    ⟨"20:00-21:00", by decide, "20:00–21:00", by decide, by decide⟩

/-- C9 (amended): booking creation rejects, before any write, a date not
matching `YYYY-MM-DD`, a date earlier than the current Prague day, and
an empty slot list; it performs no mutual-overlap check on the requested
slots themselves. -/
theorem book_validation_rules :
    (∀ (db : Db) (now : Nat) (today : String) (price nextId : Nat)
        (gw : GatewayCreateResult) (date : String) (hours : List String)
        (name email phone : String),
        validDateFormat (trimStr date) = false →
        postBook db now today price nextId gw date hours name email phone =
          (BookResult.validationError "Neplatne datum.", db)) ∧
    (∀ (db : Db) (now : Nat) (today : String) (price nextId : Nat)
        (gw : GatewayCreateResult) (date : String) (hours : List String)
        (name email phone : String),
        validDateFormat (trimStr date) = true →
        strLt (trimStr date) today = true →
        postBook db now today price nextId gw date hours name email phone =
          (BookResult.validationError "Nelze rezervovat zpetne.", db)) ∧
    (∀ (db : Db) (now : Nat) (today : String) (price nextId : Nat)
        (gw : GatewayCreateResult) (date : String)
        (name email phone : String),
        validDateFormat (trimStr date) = true →
        strLt (trimStr date) today = false →
        postBook db now today price nextId gw date [] name email phone =
          (BookResult.validationError "Chybi hodiny rezervace.", db)) := by
  refine ⟨?_, ?_, ?_⟩
  · intro db now today price nextId gw date hours name email phone hfmt
    simp [postBook, hfmt]
  · intro db now today price nextId gw date hours name email phone hfmt hpast
    simp [postBook, hfmt, hpast]
  · intro db now today price nextId gw date name email phone hfmt hpast
    simp [postBook, hfmt, hpast]

/-- Witness for C9's amended statement: a malformed date is rejected
with the validation message and the table untouched. -/
theorem book_validation_rules_witness :
    postBook [] 0 "2026-01-05" 200 1 (GatewayCreateResult.ok 9 "u") "bad-date"
        ["20:00-21:00"] "N" "E" "P" =
      (BookResult.validationError "Neplatne datum.", []) :=
  book_validation_rules.1 [] 0 "2026-01-05" 200 1 (GatewayCreateResult.ok 9 "u")
    "bad-date" ["20:00-21:00"] "N" "E" "P" (by decide)

/-- Counterexample for C9 as stated: a request repeating the same slot
token twice is not rejected as a validation error — it is accepted and
persisted, priced as two slots (amount 400 at price 200). -/
theorem book_accepts_duplicate_slots_cex :
    isValidationError
        (postBook [] 0 "2026-01-05" 200 1 (GatewayCreateResult.ok 9 "u")
          "2026-01-05" ["20:00-21:00", "20:00-21:00"] "N" "E" "P").1 = false ∧
    ((postBook [] 0 "2026-01-05" 200 1 (GatewayCreateResult.ok 9 "u")
          "2026-01-05" ["20:00-21:00", "20:00-21:00"] "N" "E" "P").2).map
        (fun b => b.amountCzk) = [400] := by
  decide

/-- Appending a fresh row and then running a guarded by-id update
touches exactly the fresh row. -/
theorem map_upd_append {α : Type} (hit : α → Bool) (f : α → α) (l : List α)
    (x : α) (hl : ∀ a ∈ l, hit a = false) (hx : hit x = true) :
    (l ++ [x]).map (fun b => if hit b then f b else b) = l ++ [f x] := by
  rw [List.map_append, map_ite_id hit f l hl]
  simp [hx]

/-- C4: a successful creation persists exactly one new row with status
pending, hold deadline `now + 15min`, and amount equal to the number of
requested slots times the price read at creation time; and the settings
update endpoint never touches the bookings table, so a later price
change leaves every stored amount unchanged. -/
theorem booking_creation_price_capture :
    (∀ (db : Db) (now : Nat) (today : String) (price nextId pid : Nat)
        (url date : String) (hours : List String) (name email phone : String),
        validDateFormat (trimStr date) = true →
        strLt (trimStr date) today = false →
        hours ≠ [] →
        conflictExists db now (trimStr date) (hours.map normHour) = false →
        0 < price →
        (∀ b ∈ db, b.id ≠ nextId) →
        ∃ r : Booking,
          postBook db now today price nextId (GatewayCreateResult.ok pid url)
              date hours name email phone =
            (BookResult.created nextId url (now + holdMs) (hours.length * price),
             db ++ [r]) ∧
          r.status = PayStatus.pending ∧
          r.expiresAt = some (now + holdMs) ∧
          r.amountCzk = hours.length * price ∧
          r.gopayPaymentId = some pid) ∧
    (∀ (st : AppState) (price : Option Nat) (code : Option String),
        (adminPutSettings st price code).db = st.db) := by
  constructor
  · intro db now today price nextId pid url date hours name email phone
    intro hfmt hpast hne hnoc hpr hfresh
    have hz : ¬ ((hours.map normHour).length * price = 0) := by
      rw [List.length_map]
      have h1 : hours.length ≠ 0 := fun h => hne (List.length_eq_zero.mp h)
      exact Nat.mul_ne_zero h1 (Nat.pos_iff_ne_zero.mp hpr)
    have hmap : (db ++ [pendingRow now price nextId (trimStr date)
        (hours.map normHour) name email phone]).map
        (fun b => if decide (b.id = nextId) then
          { b with gopayPaymentId := some pid } else b) =
        db ++ [{ pendingRow now price nextId (trimStr date)
          (hours.map normHour) name email phone with
            gopayPaymentId := some pid }] :=
      map_upd_append _ _ db _
        (fun a ha => decide_eq_false (hfresh a ha)) (by simp [pendingRow])
    refine ⟨{ pendingRow now price nextId (trimStr date)
      (hours.map normHour) name email phone with
        gopayPaymentId := some pid }, ?_, rfl, rfl, ?_, rfl⟩
    · simp only [postBook]
      rw [if_pos hfmt]
      rw [if_neg (show ¬ (strLt (trimStr date) today = true) by simp [hpast])]
      rw [if_neg hne]
      rw [if_neg (show ¬ (conflictExists db now (trimStr date)
        (hours.map normHour) = true) by simp [hnoc])]
      rw [if_neg hz]
      rw [hmap]
      rw [List.length_map]
    · simp [pendingRow, List.length_map]
  · intro st price code
    rfl

/-- Witness for C4, matching spec Scenario A: one slot at price 200
yields amount 200, status pending, deadline `now + 15min`. -/
theorem booking_creation_price_capture_witness :
    (∃ r : Booking,
      postBook [] 0 "2026-01-05" 200 1 (GatewayCreateResult.ok 9 "u")
          "2026-01-05" ["20:00-21:00"] "N" "E" "P" =
        (BookResult.created 1 "u" (0 + holdMs) (200 : Nat), [] ++ [r]) ∧
      r.status = PayStatus.pending ∧
      r.expiresAt = some (0 + holdMs) ∧
      r.amountCzk = 200 ∧
      r.gopayPaymentId = some 9) :=
  booking_creation_price_capture.1 [] 0 "2026-01-05" 200 1 9 "u" "2026-01-05"
    ["20:00-21:00"] "N" "E" "P" (by decide) (by decide) (by decide) (by decide)
    (by decide) (by decide)

/-- C5: when the gateway create call fails, the persisted reservation is
moved to status failed with the error recorded, the caller gets the
gateway rejection, and the failed row never blocks a later creation for
the same date and slots: conflict detection over the new table equals
conflict detection over the old one, and a retry cannot fail with the
conflict rejection on account of this reservation. -/
theorem gateway_failure_releases_slots :
    ∀ (db : Db) (now : Nat) (today : String) (price nextId : Nat)
      (e date : String) (hours : List String) (name email phone : String),
      validDateFormat (trimStr date) = true →
      strLt (trimStr date) today = false →
      hours ≠ [] →
      conflictExists db now (trimStr date) (hours.map normHour) = false →
      0 < price →
      (∀ b ∈ db, b.id ≠ nextId) →
      ∃ r : Booking,
        postBook db now today price nextId (GatewayCreateResult.fail e)
            date hours name email phone =
          (BookResult.gatewayError, db ++ [r]) ∧
        r.status = PayStatus.failed ∧
        r.paymentError = some e ∧
        (∀ now2 : Nat,
          conflictExists (db ++ [r]) now2 (trimStr date) (hours.map normHour) =
            conflictExists db now2 (trimStr date) (hours.map normHour)) ∧
        (∀ (now2 nextId2 : Nat) (gw2 : GatewayCreateResult)
            (name2 email2 phone2 : String),
          conflictExists db now2 (trimStr date) (hours.map normHour) = false →
          (postBook (db ++ [r]) now2 today price nextId2 gw2 date hours
              name2 email2 phone2).1 ≠ BookResult.conflictError) := by
  intro db now today price nextId e date hours name email phone
  intro hfmt hpast hne hnoc hpr hfresh
  have hz : ¬ ((hours.map normHour).length * price = 0) := by
    rw [List.length_map]
    have h1 : hours.length ≠ 0 := fun h => hne (List.length_eq_zero.mp h)
    exact Nat.mul_ne_zero h1 (Nat.pos_iff_ne_zero.mp hpr)
  have hmap : (db ++ [pendingRow now price nextId (trimStr date)
      (hours.map normHour) name email phone]).map
      (fun b => if decide (b.id = nextId) then
        { b with status := PayStatus.failed, paymentError := some e }
      else b) =
      db ++ [{ pendingRow now price nextId (trimStr date)
        (hours.map normHour) name email phone with
          status := PayStatus.failed, paymentError := some e }] :=
    map_upd_append _ _ db _
      (fun a ha => decide_eq_false (hfresh a ha)) (by simp [pendingRow])
  refine ⟨{ pendingRow now price nextId (trimStr date)
    (hours.map normHour) name email phone with
      status := PayStatus.failed, paymentError := some e }, ?_, rfl, rfl, ?_, ?_⟩
  · simp only [postBook]
    rw [if_pos hfmt]
    rw [if_neg (show ¬ (strLt (trimStr date) today = true) by simp [hpast])]
    rw [if_neg hne]
    rw [if_neg (show ¬ (conflictExists db now (trimStr date)
      (hours.map normHour) = true) by simp [hnoc])]
    rw [if_neg hz]
    rw [hmap]
  · intro now2
    rw [conflictExists, conflictExists, List.any_append]
    have hrow : conflictRow now2 (trimStr date) (hours.map normHour)
        { pendingRow now price nextId (trimStr date)
          (hours.map normHour) name email phone with
            status := PayStatus.failed, paymentError := some e } = false := by
      simp [conflictRow, activeForConflict]
    simp [hrow]
  · intro now2 nextId2 gw2 name2 email2 phone2 hnoc2
    have hc2 : conflictExists
        (db ++ [{ pendingRow now price nextId (trimStr date)
          (hours.map normHour) name email phone with
            status := PayStatus.failed, paymentError := some e }]) now2
        (trimStr date) (hours.map normHour) = false := by
      rw [conflictExists, List.any_append]
      have hrow : conflictRow now2 (trimStr date) (hours.map normHour)
          { pendingRow now price nextId (trimStr date)
            (hours.map normHour) name email phone with
              status := PayStatus.failed, paymentError := some e } = false := by
        simp [conflictRow, activeForConflict]
      rw [conflictExists] at hnoc2
      simp [hrow, hnoc2]
    have hpz : price ≠ 0 := Nat.pos_iff_ne_zero.mp hpr
    cases gw2 with
    | ok pid2 url2 => simp [postBook, hfmt, hpast, hne, hc2, hz, hpz]
    | fail e2 => simp [postBook, hfmt, hpast, hne, hc2, hz, hpz]

/-- Witness for C5: after a gateway failure the row is failed and a
retry for the same slot does not hit the conflict rejection. -/
theorem gateway_failure_releases_slots_witness :
    (∃ r : Booking,
      postBook [] 0 "2026-01-05" 200 1 (GatewayCreateResult.fail "down")
          "2026-01-05" ["20:00-21:00"] "N" "E" "P" =
        (BookResult.gatewayError, [] ++ [r]) ∧
      r.status = PayStatus.failed ∧
      r.paymentError = some "down" ∧
      (∀ now2 : Nat,
        conflictExists ([] ++ [r]) now2 (trimStr "2026-01-05")
            (["20:00-21:00"].map normHour) =
          conflictExists [] now2 (trimStr "2026-01-05")
            (["20:00-21:00"].map normHour)) ∧
      (∀ (now2 nextId2 : Nat) (gw2 : GatewayCreateResult)
          (name2 email2 phone2 : String),
        conflictExists [] now2 (trimStr "2026-01-05")
            (["20:00-21:00"].map normHour) = false →
        (postBook ([] ++ [r]) now2 "2026-01-05" 200 nextId2 gw2 "2026-01-05"
            ["20:00-21:00"] name2 email2 phone2).1 ≠
          BookResult.conflictError)) :=
  gateway_failure_releases_slots [] 0 "2026-01-05" 200 1 "down" "2026-01-05"
    ["20:00-21:00"] "N" "E" "P" (by decide) (by decide) (by decide) (by decide)
    (by decide) (by decide)

/-- C6 (amended): the polling sweep scans only reservations that are
pending, have a payment handle and are not past their hold deadline,
capped at 20 rows per run; for a row whose gateway state is paid it runs
an unconditional by-id update to paid and always sends the confirmation
itself (it is not gated on a conditional update affecting one row, so a
poll racing a webhook can fire the notification a second time); for any
other state it only stores the diagnostic note, leaving every status
unchanged and sending nothing. -/
theorem polling_sweep_behavior :
    (∀ (db : Db) (now : Nat) (b : Booking), b ∈ pollSelect db now →
        b ∈ db ∧ pollPred now b = true) ∧
    (∀ (db : Db) (now : Nat), (pollSelect db now).length ≤ 20) ∧
    (∀ (db : Db) (i : Nat),
        (pollHandleRow db i (Except.ok "PAID")).2 = 1 ∧
        ∀ c ∈ (pollHandleRow db i (Except.ok "PAID")).1, c.id = i →
          c.status = PayStatus.paid) ∧
    (∀ (db : Db) (i : Nat) (s : String), s ≠ "PAID" →
        (pollHandleRow db i (Except.ok s)).2 = 0 ∧
        ((pollHandleRow db i (Except.ok s)).1).map (fun b => b.status) =
          db.map (fun b => b.status)) := by
  refine ⟨?_, ?_, ?_, ?_⟩
  · intro db now b hb
    have hb' := List.mem_of_mem_take hb
    exact ⟨(List.mem_filter.mp hb').1, (List.mem_filter.mp hb').2⟩
  · intro db now
    rw [pollSelect, List.length_take]
    exact Nat.min_le_left _ _
  · intro db i
    constructor
    · simp [pollHandleRow]
    · intro c hc hcid
      simp only [pollHandleRow, if_pos rfl, pollMarkPaidUncond] at hc
      obtain ⟨x, hx, rfl⟩ := List.mem_map.mp hc
      by_cases hxi : decide (x.id = i) = true
      · rw [if_pos hxi]
      · rw [if_neg hxi] at hcid
        rw [if_neg hxi]
        rw [decide_eq_true_eq] at hxi
        exact absurd hcid hxi
  · intro db i s hs
    constructor
    · simp [pollHandleRow, hs]
    · simp only [pollHandleRow, if_neg hs, notePaymentError, List.map_map]
      refine List.map_congr_left ?_
      intro b hb
      by_cases hbi : decide (b.id = i) = true
      · simp [Function.comp, hbi]
      · simp [Function.comp, hbi]

/-- Witness for C6's amended statement: a non-paid gateway state only
stores the note — no notification, statuses unchanged. -/
theorem polling_sweep_behavior_witness :
    (pollHandleRow [pollBooking] 1 (Except.ok "CANCELED")).2 = 0 ∧
    ((pollHandleRow [pollBooking] 1 (Except.ok "CANCELED")).1).map
        (fun b => b.status) =
      [pollBooking].map (fun b => b.status) :=
  polling_sweep_behavior.2.2.2 [pollBooking] 1 "CANCELED" (by decide)

/-- Counterexample for C6 as stated: the polling sweep selects the
pending reservation, a webhook races it and wins the conditional
transition (one notification), yet the poll still processes the
now-paid row and fires the confirmation again — its update is
unconditional, so the race has two winners, not one. -/
theorem polling_sweep_double_notification_cex :
    pollSelect [pollBooking] 0 = [pollBooking] ∧
    (webhookStep [pollBooking] false false (some 5) (Except.ok "PAID")).notifCount = 1 ∧
    (webhookStep [pollBooking] false false (some 5) (Except.ok "PAID")).db =
      [{ pollBooking with status := PayStatus.paid, paymentError := none }] ∧
    (pollHandleRow
        (webhookStep [pollBooking] false false (some 5) (Except.ok "PAID")).db 1
        (Except.ok "PAID")).2 = 1 := by
  decide

/-- C10: given a well-formed date, a valid whole-hour range, a
non-past date and no active conflict, the owner-booking endpoint runs
the same conflict check as public creation and inserts a reservation
that is directly paid with amount 0, placeholder customer data, no
payment handle and no hold deadline, so the expiry sweeper can never
select it; on an active conflict it rejects and inserts nothing. -/
theorem owner_booking_direct_paid :
    (∀ (db : Db) (now : Nat) (today : String) (nextId : Nat)
        (date startTime endTime : String) (hs : List String),
        validDateFormat (trimStr date) = true →
        buildHourlySlots startTime endTime = some hs →
        hs ≠ [] →
        strLt (trimStr date) today = false →
        conflictExists db now (trimStr date) (hs.map normHour) = false →
        postOwnerBooking db now today nextId date startTime endTime =
          (OwnerResult.ok nextId (trimStr date) (hs.map normHour),
           db ++ [ownerRow nextId (trimStr date) (hs.map normHour)]) ∧
        (ownerRow nextId (trimStr date) (hs.map normHour)).status =
          PayStatus.paid ∧
        (ownerRow nextId (trimStr date) (hs.map normHour)).amountCzk = 0 ∧
        (ownerRow nextId (trimStr date) (hs.map normHour)).gopayPaymentId =
          none ∧
        (ownerRow nextId (trimStr date) (hs.map normHour)).expiresAt = none ∧
        (ownerRow nextId (trimStr date) (hs.map normHour)).name = "Owner" ∧
        (ownerRow nextId (trimStr date) (hs.map normHour)).email =
          "owner@local" ∧
        (ownerRow nextId (trimStr date) (hs.map normHour)).phone =
          "+000000000000" ∧
        (∀ t : Nat,
          sweepPred t (ownerRow nextId (trimStr date) (hs.map normHour)) =
            false)) ∧
    (∀ (db : Db) (now : Nat) (today : String) (nextId : Nat)
        (date startTime endTime : String) (hs : List String),
        validDateFormat (trimStr date) = true →
        buildHourlySlots startTime endTime = some hs →
        hs ≠ [] →
        strLt (trimStr date) today = false →
        conflictExists db now (trimStr date) (hs.map normHour) = true →
        postOwnerBooking db now today nextId date startTime endTime =
          (OwnerResult.conflictError, db)) := by
  constructor
  · intro db now today nextId date startTime endTime hs
    intro hfmt hbs hne hpast hnoc
    refine ⟨?_, rfl, rfl, rfl, rfl, rfl, rfl, rfl, ?_⟩
    · simp only [postOwnerBooking, hbs]
      rw [if_pos hfmt]
      rw [if_neg hne]
      rw [if_neg (show ¬ (strLt (trimStr date) today = true) by simp [hpast])]
      rw [if_neg (show ¬ (conflictExists db now (trimStr date)
        (hs.map normHour) = true) by simp [hnoc])]
    · intro t
      simp [sweepPred, ownerRow]
  · intro db now today nextId date startTime endTime hs
    intro hfmt hbs hne hpast hc
    simp only [postOwnerBooking, hbs]
    rw [if_pos hfmt]
    rw [if_neg hne]
    rw [if_neg (show ¬ (strLt (trimStr date) today = true) by simp [hpast])]
    rw [if_pos hc]

/-- Witness for C10: an owner booking for 20:00-22:00 on a free day is
inserted directly paid with amount 0 and placeholders. -/
theorem owner_booking_direct_paid_witness :
    postOwnerBooking [] 0 "2026-01-05" 1 "2026-01-05" "20:00" "22:00" =
      (OwnerResult.ok 1 (trimStr "2026-01-05")
        (["20:00-21:00", "21:00-22:00"].map normHour),
       [] ++ [ownerRow 1 (trimStr "2026-01-05")
         (["20:00-21:00", "21:00-22:00"].map normHour)]) :=
  (owner_booking_direct_paid.1 [] 0 "2026-01-05" 1 "2026-01-05" "20:00" "22:00"
    ["20:00-21:00", "21:00-22:00"] (by decide) (by decide) (by decide)
    (by decide) (by decide)).1

/-- The initial SMS machine satisfies the dispatch invariant. -/
theorem smsInv_init (st0 : SmsStatus) (outcomes : List Bool) :
    smsInv (smsInit st0 outcomes) := by
  have hH : holdersCount (smsInit st0 outcomes) = 0 := by
    rw [holdersCount, smsInit, List.countP_map]
    refine List.countP_eq_zero.mpr ?_
    intro a _
    simp [Function.comp, isSending]
  have hS : deliveredCount (smsInit st0 outcomes) = 0 := by
    rw [deliveredCount, smsInit, List.countP_map]
    refine List.countP_eq_zero.mpr ?_
    intro a _
    simp [Function.comp, isDelivered]
  refine ⟨by omega, by omega, ?_, ?_, ?_⟩
  · intro h
    omega
  · intro h
    omega
  · intro _
    exact hH

/-- Each interleaved step preserves the dispatch invariant. -/
theorem smsInv_step {a b : SmsMachine} (hinv : smsInv a) (hstep : SmsStep a b) :
    smsInv b := by
  obtain ⟨h1, h2, h3, h4, h5⟩ := hinv
  cases hstep with
  | reserve st pre post w =>
    cases st with
    | unset =>
      simp [smsInv, holdersCount, deliveredCount, List.countP_append,
        List.countP_cons, isSending, isDelivered, smsReserveRow] at h1 h2 h3 h4 h5 ⊢
      exact ⟨by omega, h2, h3⟩
    | pending =>
      simp [smsInv, holdersCount, deliveredCount, List.countP_append,
        List.countP_cons, isSending, isDelivered, smsReserveRow] at h1 h2 h3 h4 h5 ⊢
      exact ⟨h1, h2, h3⟩
    | sent =>
      simp [smsInv, holdersCount, deliveredCount, List.countP_append,
        List.countP_cons, isSending, isDelivered, smsReserveRow] at h1 h2 h3 h4 h5 ⊢
      exact ⟨h1, h2, h4, h5.1, h5.2⟩
    | failed =>
      simp [smsInv, holdersCount, deliveredCount, List.countP_append,
        List.countP_cons, isSending, isDelivered, smsReserveRow] at h1 h2 h3 h4 h5 ⊢
      exact ⟨by omega, h2, h3⟩
  | finish st pre post w =>
    cases w with
    | true =>
      simp [smsInv, holdersCount, deliveredCount, List.countP_append,
        List.countP_cons, isSending, isDelivered] at h1 h2 h3 h4 h5 ⊢
      have hst : st = SmsStatus.pending := h4 (by omega)
      have hCD : List.countP isDelivered pre + List.countP isDelivered post = 0 := by
        by_contra hne
        have := h3 (by omega)
        rw [hst] at this
        exact SmsStatus.noConfusion this
      refine ⟨by omega, by omega, by omega, ?_, ?_⟩
      · intro x hx
        exact Bool.eq_false_iff.mpr
          (List.countP_eq_zero.mp
            (by omega : List.countP isSending pre = 0) x hx)
      · intro x hx
        exact Bool.eq_false_iff.mpr
          (List.countP_eq_zero.mp
            (by omega : List.countP isSending post = 0) x hx)
    | false =>
      simp [smsInv, holdersCount, deliveredCount, List.countP_append,
        List.countP_cons, isSending, isDelivered] at h1 h2 h3 h4 h5 ⊢
      have hst : st = SmsStatus.pending := h4 (by omega)
      have hCD : List.countP isDelivered pre + List.countP isDelivered post = 0 := by
        by_contra hne
        have := h3 (by omega)
        rw [hst] at this
        exact SmsStatus.noConfusion this
      exact ⟨by omega, by omega, by omega, by omega⟩

/-- The dispatch invariant holds in every state reachable from an
invariant state. -/
theorem smsInv_reach {a b : SmsMachine} (h0 : smsInv a) (hr : SmsReach a b) :
    smsInv b := by
  induction hr with
  | refl => exact h0
  | tail hab hbc ih => exact smsInv_step ih hbc

/-- C7: the SMS send lock behaves as specified — with a unique row for
the id, `reserveSmsSend` affects exactly one row iff the reservation's
`sms_status` is unset or failed (so a caller whose update affects zero
rows holds no lock and sends nothing); and over every interleaving of
concurrent sending triggers (each acquiring the lock, then writing
`sent` on success or `failed` on error), at most one trigger ever
achieves a successful delivery. -/
theorem sms_send_lock_at_most_once :
    (∀ (db : Db) (i : Nat) (b : Booking),
        db.countP (fun x => decide (x.id = i)) = 1 → b ∈ db → b.id = i →
        (((reserveSmsSend db i).2 = 1) ↔
          (b.smsStatus = SmsStatus.unset ∨ b.smsStatus = SmsStatus.failed))) ∧
    (∀ (st0 : SmsStatus) (outcomes : List Bool) (m : SmsMachine),
        SmsReach (smsInit st0 outcomes) m → deliveredCount m ≤ 1) := by
  constructor
  · intro db i b huniq hmem hid
    constructor
    · intro hcnt
      have hpos : 0 < db.countP (reserveHit i) := by
        rw [show (reserveSmsSend db i).2 = db.countP (reserveHit i) from rfl]
          at hcnt
        omega
      obtain ⟨x, hx, hhit⟩ := List.countP_pos_iff.mp hpos
      have hxid : decide (x.id = i) = true := by
        rw [reserveHit, Bool.and_eq_true] at hhit
        exact hhit.1
      have hxb : x = b := by
        refine countP_le_one_eq (fun y => decide (y.id = i)) db (by omega)
          x hx hxid b hmem (by simp [hid])
      rw [reserveHit, Bool.and_eq_true, smsLockFree, Bool.or_eq_true] at hhit
      rcases hhit.2 with hu | hf
      · left
        rw [← hxb]
        exact of_decide_eq_true hu
      · right
        rw [← hxb]
        exact of_decide_eq_true hf
    · intro hfree
      have hle : db.countP (reserveHit i) ≤
          db.countP (fun x => decide (x.id = i)) := by
        refine List.countP_mono_left ?_
        intro x hx hhit
        rw [reserveHit, Bool.and_eq_true] at hhit
        exact hhit.1
      have hpos : 0 < db.countP (reserveHit i) := by
        refine List.countP_pos_iff.mpr ⟨b, hmem, ?_⟩
        rw [reserveHit, Bool.and_eq_true, smsLockFree, Bool.or_eq_true]
        refine ⟨by simp [hid], ?_⟩
        rcases hfree with hu | hf
        · exact Or.inl (by simp [hu])
        · exact Or.inr (by simp [hf])
      rw [show (reserveSmsSend db i).2 = db.countP (reserveHit i) from rfl]
      omega
  · intro st0 outcomes m hr
    exact (smsInv_reach (smsInv_init st0 outcomes) hr).2.1

/-- Witness for C7: the lock characterisation on an unset-status row,
and the delivery bound at the initial machine. -/
theorem sms_send_lock_at_most_once_witness :
    (((reserveSmsSend [pollBooking] 1).2 = 1) ↔
      (pollBooking.smsStatus = SmsStatus.unset ∨
        pollBooking.smsStatus = SmsStatus.failed)) ∧
    deliveredCount (smsInit SmsStatus.unset [true, true]) ≤ 1 :=
  ⟨sms_send_lock_at_most_once.1 [pollBooking] 1 pollBooking (by decide)
    (by decide) rfl,
   sms_send_lock_at_most_once.2 SmsStatus.unset [true, true] _
    (SmsReach.refl _)⟩
